import Mathlib

/-!
Verification of the input-recording-and-replay engine (`replayer.py`).

Timestamps and clock values are modelled as rationals, pixel deltas and
key codes as integers.  Calls into the operating system (`MapVirtualKeyA`)
and into the Python runtime (`int()` on a string, `str.isalpha`) are
modelled as oracle parameters, so every theorem holds for every possible
behaviour of those external calls.  Python dictionary access on the JSON
event records is modelled with `Option` fields; a missing field raises
`KeyError`, modelled by the `Except` error channel.
-/

namespace Replayer

/-- External calls made by the keyboard scan-code resolver:
`user32.MapVirtualKeyA(vk, 0)` (returns `0` when the key has no mapping)
and Python's `int()` applied to a string (`none` models `ValueError`). -/
structure Sys where
  mapVirtualKeyA : Int → Int
  pyInt : String → Option Int

/-- The `MouseEvent` dataclass / the JSON record it serialises to.
All fields default to `None` in the source; `timestamp` is kept total
because replay sorting dereferences it for every loaded event. -/
structure MouseEvent where
  type : Option String := none
  x : Option Int := none
  y : Option Int := none
  button : Option String := none
  pressed : Option Bool := none
  dx : Option Int := none
  dy : Option Int := none
  timestamp : ℚ := 0
deriving DecidableEq, Repr

/-- The `KeyboardEvent` dataclass / its JSON record. -/
structure KeyboardEvent where
  type : Option String := none
  key : Option String := none
  pressed : Option Bool := none
  timestamp : ℚ := 0
deriving DecidableEq, Repr

/-- A key as delivered by the `pynput` listener: either a named special
key (`Key.f9`, `Key.shift`, ...) or a `KeyCode` carrying a virtual-key
code and an optional character. -/
inductive PyKey where
  | special (name : String)
  | code (vk : Int) (char : Option Char)
deriving DecidableEq, Repr

/-- The fallback token `f"KeyCode({vk})"` for unrecognised keys. -/
def keyCodeFallback (vk : Int) : String :=
  "KeyCode(" ++ toString vk ++ ")"

/-- The `russian_to_english` table of `BackgroundRecorder._key_to_string`:
maps the secondary-layout virtual-key code range back to Latin keys. -/
def russian_to_english : List (Int × String) :=
  [(192, "a"), (193, "b"), (194, "c"), (195, "d"), (196, "e"), (197, "f"),
   (198, "g"), (199, "h"), (200, "i"), (201, "j"), (202, "k"), (203, "l"),
   (204, "m"), (205, "n"), (206, "o"), (207, "p"), (208, "q"), (209, "r"),
   (210, "s"), (211, "t"), (212, "u"), (213, "v"), (214, "w"), (215, "x"),
   (216, "y"), (217, "z"), (218, "["), (219, "]"), (220, "\\"),
   (221, ";"), (222, "\x27"), (223, "\x60")]

/-- `BackgroundRecorder._key_to_string`.  `pyIsAlpha` is the oracle for
Python's Unicode-aware `str.isalpha` on the key's character. -/
def key_to_string (pyIsAlpha : Char → Bool) (k : PyKey) : String :=
  match k with
  | .code vk ch =>
    let charAlpha := match ch with | some c => pyIsAlpha c | none => false
    if charAlpha then
      if 65 ≤ vk ∧ vk ≤ 90 then
        String.singleton (Char.toLower (Char.ofNat vk.toNat))
      else if 192 ≤ vk ∧ vk ≤ 255 then
        match russian_to_english.lookup vk with
        | some s => s
        | none => keyCodeFallback vk
      else
        match ch with
        | some c => String.singleton c
        | none => keyCodeFallback vk
    else
      match ch with
      | some c => String.singleton c
      | none => keyCodeFallback vk
  | .special name =>
    if name = "shift" then "shift_l"
    else if name = "ctrl" then "ctrl_l"
    else if name = "alt" then "alt_l"
    else name

/-- The mutable state of `BackgroundRecorder`. -/
structure RecorderState where
  mouse_events : List MouseEvent := []
  keyboard_events : List KeyboardEvent := []
  start_time : Option ℚ := none
  recording : Bool := false
  filename : Option String := none
  last_mouse_position : Option (Int × Int) := none
  record_start_time : Option ℚ := none
  total_duration : ℚ := 0
deriving DecidableEq, Repr

/-- `BackgroundRecorder.start_recording`.  `mono` is `time.perf_counter()`,
`wall` is `time.time()` and `wallStamp` the formatted wall-clock datetime
used to build the file name. -/
def start_recording (mono wall : ℚ) (wallStamp : String)
    (st : RecorderState) : RecorderState :=
  if st.recording then st
  else
    { st with
      mouse_events := []
      keyboard_events := []
      start_time := some mono
      record_start_time := some wall
      filename := some ("replay_" ++ wallStamp ++ ".json")
      recording := true
      last_mouse_position := none }

/-- The recording handed to `save_recording` when a session stops. -/
structure SavedRecording where
  filename : String
  mouse_events : List MouseEvent
  keyboard_events : List KeyboardEvent
  total_duration : ℚ
deriving DecidableEq, Repr

/-- `BackgroundRecorder.stop_recording`: flips the flag, computes the
duration and hands the frozen recording to the store; a no-op (and no
file write) when not recording. -/
def stop_recording (mono : ℚ) (st : RecorderState) :
    RecorderState × Option SavedRecording :=
  if st.recording then
    let dur := mono - st.start_time.getD 0
    ({ st with recording := false, total_duration := dur },
     some { filename := st.filename.getD ""
            mouse_events := st.mouse_events
            keyboard_events := st.keyboard_events
            total_duration := dur })
  else (st, none)

/-- `BackgroundRecorder.on_mouse_move`.  `now` is `time.perf_counter()`. -/
def on_mouse_move (now : ℚ) (x y : Int) (st : RecorderState) :
    RecorderState :=
  if st.recording then
    let timestamp := now - st.start_time.getD 0
    let st' :=
      match st.last_mouse_position with
      | some (lx, ly) =>
        let dx := x - lx
        let dy := y - ly
        if dx ≠ 0 ∨ dy ≠ 0 then
          { st with
            mouse_events := st.mouse_events ++
              [({ type := some "move_relative", dx := some dx, dy := some dy,
                  timestamp := timestamp } : MouseEvent)] }
        else st
      | none => st
    { st' with last_mouse_position := some (x, y) }
  else st

/-- `BackgroundRecorder.on_mouse_click`. -/
def on_mouse_click (now : ℚ) (buttonName : String) (pressed : Bool)
    (st : RecorderState) : RecorderState :=
  if st.recording then
    let timestamp := now - st.start_time.getD 0
    { st with
      mouse_events := st.mouse_events ++
        [({ type := some "click", button := some buttonName,
            pressed := some pressed, timestamp := timestamp } : MouseEvent)] }
  else st

/-- `BackgroundRecorder.on_mouse_scroll`. -/
def on_mouse_scroll (now : ℚ) (dx dy : Int) (st : RecorderState) :
    RecorderState :=
  if st.recording then
    let timestamp := now - st.start_time.getD 0
    { st with
      mouse_events := st.mouse_events ++
        [({ type := some "scroll", dx := some dx, dy := some dy,
            timestamp := timestamp } : MouseEvent)] }
  else st

/-- The two keys reserved as the capture session's start/stop hotkeys
(`Key.f9`, `Key.f10`). -/
def reservedKey (k : PyKey) : Prop :=
  k = .special "f9" ∨ k = .special "f10"

instance (k : PyKey) : Decidable (reservedKey k) := by
  unfold reservedKey; infer_instance

/-- `BackgroundRecorder.on_key_press`. -/
def on_key_press (pyIsAlpha : Char → Bool) (now : ℚ) (key : PyKey)
    (st : RecorderState) : RecorderState :=
  if st.recording then
    if reservedKey key then st
    else
      let timestamp := now - st.start_time.getD 0
      let key_str := key_to_string pyIsAlpha key
      { st with
        keyboard_events := st.keyboard_events ++
          [({ type := some "press", key := some key_str,
              pressed := some true, timestamp := timestamp } : KeyboardEvent)] }
  else st

/-- `BackgroundRecorder.on_key_release`. -/
def on_key_release (pyIsAlpha : Char → Bool) (now : ℚ) (key : PyKey)
    (st : RecorderState) : RecorderState :=
  if st.recording then
    if reservedKey key then st
    else
      let timestamp := now - st.start_time.getD 0
      let key_str := key_to_string pyIsAlpha key
      { st with
        keyboard_events := st.keyboard_events ++
          [({ type := some "release", key := some key_str,
              pressed := some false, timestamp := timestamp } : KeyboardEvent)] }
  else st

/-! ## Replay side: input injection port and keyboard scan codes -/

/-- The calls the Replay Engine makes into the OS input-synthesis port
(`SendInput`), abstracted as the four capabilities of the port. -/
inductive Injection where
  | moveRel (dx dy : Int)
  | button (name : String) (pressed : Bool)
  | wheel (amount : Int)
  | key (scan : Int) (extended : Bool) (pressed : Bool)
deriving DecidableEq, Repr

/-- What the replay side prints: the unresolved-key warning inside
`_get_scan_code`, and the two per-event `except`-block messages. -/
inductive LogEntry where
  | unknownKey (key : String)
  | mouseError (msg : String)
  | keyboardError (key msg : String)
deriving DecidableEq, Repr

/-- The `scan_codes` table of `LowLevelKeyboardController`. -/
def scan_codes : List (String × Int) :=
  [("shift_l", 0x2A), ("shift_r", 0x36), ("ctrl_l", 0x1D), ("ctrl_r", 0x1D),
   ("alt_l", 0x38), ("alt_r", 0x38),
   ("a", 0x1E), ("b", 0x30), ("c", 0x2E), ("d", 0x20), ("e", 0x12),
   ("f", 0x21), ("g", 0x22), ("h", 0x23), ("i", 0x17), ("j", 0x24),
   ("k", 0x25), ("l", 0x26), ("m", 0x32), ("n", 0x31), ("o", 0x18),
   ("p", 0x19), ("q", 0x10), ("r", 0x13), ("s", 0x1F), ("t", 0x14),
   ("u", 0x16), ("v", 0x2F), ("w", 0x11), ("x", 0x2D), ("y", 0x15),
   ("z", 0x2C),
   ("0", 0x0B), ("1", 0x02), ("2", 0x03), ("3", 0x04), ("4", 0x05),
   ("5", 0x06), ("6", 0x07), ("7", 0x08), ("8", 0x09), ("9", 0x0A),
   ("space", 0x39), ("enter", 0x1C), ("esc", 0x01), ("tab", 0x0F),
   ("f1", 0x3B), ("f2", 0x3C), ("f3", 0x3D), ("f4", 0x3E), ("f5", 0x3F),
   ("f6", 0x40), ("f7", 0x41), ("f8", 0x42), ("f9", 0x43), ("f10", 0x44),
   ("f11", 0x57), ("f12", 0x58),
   ("up", 0x48), ("down", 0x50), ("left", 0x4B), ("right", 0x4D),
   ("insert", 0x52), ("delete", 0x53), ("home", 0x47), ("end", 0x4F),
   ("page_up", 0x49), ("page_down", 0x51),
   ("backspace", 0x0E), ("caps_lock", 0x3A), ("num_lock", 0x45),
   ("scroll_lock", 0x46)]

/-- Python `str.startswith`: a character-list prefix test. -/
def pyStartsWith (s pre : String) : Bool :=
  decide (s.data.take pre.data.length = pre.data)

/-- Python `str.lower`, in its ASCII restriction — which agrees with
Python on every key name the recorder emits. -/
def pyLower (s : String) : String :=
  ⟨s.data.map Char.toLower⟩

/-- Python `str.upper`, ASCII restriction. -/
def pyUpper (s : String) : String :=
  ⟨s.data.map Char.toUpper⟩

/-- The Python slice `s[8:-1]` used to cut the payload out of a
`KeyCode(...)` token. -/
def pySlice8m1 (s : String) : String :=
  ⟨(s.data.drop 8).dropLast⟩

/-- Python dictionary access `event[name]` on an optional field: a
missing field raises `KeyError`. -/
def keyField {α : Type} (v : Option α) (name : String) : Except String α :=
  match v with
  | some a => .ok a
  | none => .error ("KeyError: " ++ name)

/-- `LowLevelKeyboardController._get_scan_code`.  Returns the scan code,
or `none` when the event degrades to a skip; the log list carries the
unresolved-key warning printed in the final branch (the `KeyCode(...)`
and single-character branches skip silently when `MapVirtualKeyA` yields
`0`).  The `Except` error models the `ValueError` that `int()` raises on
a malformed `KeyCode(...)` payload. -/
def get_scan_code (sys : Sys) (key_str : String) :
    Except String (Option Int × List LogEntry) :=
  if pyStartsWith key_str "KeyCode(" then
    match sys.pyInt (pySlice8m1 key_str) with
    | none => .error "ValueError"
    | some vk =>
      let scan_code := sys.mapVirtualKeyA vk
      .ok (if scan_code ≠ 0 then some scan_code else none, [])
  else
    let key_lower := pyLower key_str
    match scan_codes.lookup key_lower with
    | some sc => .ok (some sc, [])
    | none =>
      if key_str.data.length = 1 then
        let vk_code : Int := (((pyUpper key_str).data.headD ' ').toNat : Int)
        let scan_code := sys.mapVirtualKeyA vk_code
        .ok (if scan_code ≠ 0 then some scan_code else none, [])
      else
        .ok (none, [LogEntry.unknownKey key_str])

/-- `LowLevelKeyboardController.press_key`: resolving to no scan code
skips the injection; `ctrl_r`/`alt_r` set the extended-key flag. -/
def press_key (sys : Sys) (key_str : String) :
    Except String (List Injection × List LogEntry) := do
  let (sc?, logs) ← get_scan_code sys key_str
  match sc? with
  | none => pure ([], logs)
  | some sc =>
    let extended : Bool := key_str == "ctrl_r" || key_str == "alt_r"
    pure ([Injection.key sc extended true], logs)

/-- `LowLevelKeyboardController.release_key`. -/
def release_key (sys : Sys) (key_str : String) :
    Except String (List Injection × List LogEntry) := do
  let (sc?, logs) ← get_scan_code sys key_str
  match sc? with
  | none => pure ([], logs)
  | some sc =>
    let extended : Bool := key_str == "ctrl_r" || key_str == "alt_r"
    pure ([Injection.key sc extended false], logs)

/-- `LowLevelMouseController.move_relative`. -/
def move_relative (dx dy : Int) : List Injection :=
  [Injection.moveRel dx dy]

/-- `LowLevelMouseController.click`: unknown button names return without
injecting. -/
def click (buttonName : String) (pressed : Bool) : List Injection :=
  if buttonName = "left" then [Injection.button "left" pressed]
  else if buttonName = "right" then [Injection.button "right" pressed]
  else if buttonName = "middle" then [Injection.button "middle" pressed]
  else []

/-- `LowLevelMouseController.scroll`: only the vertical axis is
discharged, as `dy * 120` wheel units (`WHEEL_DELTA = 120`); `dx` is
never read and `dy = 0` injects nothing. -/
def scroll (dx dy : Int) : List Injection :=
  if dy ≠ 0 then [Injection.wheel (dy * 120)] else []

/-! ## Replay side: per-event dispatch -/

/-- The `GameplayPlayer` mouse accumulators (lazily created at the first
`move_relative` event with value `0.0`, hence initialised to `0` here). -/
structure PlayerState where
  mouse_accumulator_x : ℚ := 0
  mouse_accumulator_y : ℚ := 0
deriving DecidableEq, Repr

/-- Python `int()` applied to a float: truncation toward zero. -/
def pyTrunc (q : ℚ) : ℤ :=
  if 0 ≤ q then ⌊q⌋ else ⌈q⌉

/-- The body of `GameplayPlayer._handle_mouse_event` (inside the `try`);
field reads come first, exactly in source order, so a raised `KeyError`
never leaves a partial state change behind. -/
def handle_mouse_event_body (sens : ℚ) (ps : PlayerState) (ev : MouseEvent) :
    Except String (PlayerState × List Injection) := do
  let ty ← keyField ev.type "type"
  if ty = "move_relative" then
    let original_dx ← keyField ev.dx "dx"
    let original_dy ← keyField ev.dy "dy"
    let dx : ℚ := original_dx * sens
    let dy : ℚ := original_dy * sens
    let ax := ps.mouse_accumulator_x + dx
    let ay := ps.mouse_accumulator_y + dy
    let dx_int := pyTrunc ax
    let dy_int := pyTrunc ay
    let ax := ax - dx_int
    let ay := ay - dy_int
    let p :=
      if dx_int = 0 ∧ 4/5 ≤ abs ax then
        let f : ℤ := if 0 < ax then 1 else -1
        (f, ax - f)
      else (dx_int, ax)
    let q :=
      if dy_int = 0 ∧ 4/5 ≤ abs ay then
        let f : ℤ := if 0 < ay then 1 else -1
        (f, ay - f)
      else (dy_int, ay)
    let inj := if p.1 ≠ 0 ∨ q.1 ≠ 0 then move_relative p.1 q.1 else []
    pure (⟨p.2, q.2⟩, inj)
  else if ty = "click" then
    let b ← keyField ev.button "button"
    let pr ← keyField ev.pressed "pressed"
    pure (ps, click b pr)
  else if ty = "scroll" then
    let sdx ← keyField ev.dx "dx"
    let sdy ← keyField ev.dy "dy"
    pure (ps, scroll sdx sdy)
  else
    pure (ps, [])

/-- `GameplayPlayer._handle_mouse_event` with its `except` wrapper: any
raised exception is caught and printed (the message shows only the
exception, not the event), and the state mutations made so far are kept
(there are none, since field reads precede all mutations). -/
def handle_mouse_event (sens : ℚ) (ps : PlayerState) (ev : MouseEvent) :
    PlayerState × List Injection × List LogEntry :=
  match handle_mouse_event_body sens ps ev with
  | .ok (ps', inj) => (ps', inj, [])
  | .error e => (ps, [], [LogEntry.mouseError e])

/-- The body of `GameplayPlayer._handle_keyboard_event` (inside the
`try`): `event[\x27pressed\x27]` is read first, then the key is passed to
the controller. -/
def handle_keyboard_event_body (sys : Sys) (ev : KeyboardEvent) :
    Except String (List Injection × List LogEntry) := do
  let pressed ← keyField ev.pressed "pressed"
  if pressed then
    let k ← keyField ev.key "key"
    press_key sys k
  else
    let k ← keyField ev.key "key"
    release_key sys k

/-- `GameplayPlayer._handle_keyboard_event` with its `except` wrapper.
The except block formats its message with `event[\x27key\x27]`, so when
the event has no `key` field the logging line itself raises `KeyError`,
which escapes the handler (returned as `.error`). -/
def handle_keyboard_event (sys : Sys) (ev : KeyboardEvent) :
    Except String (List Injection × List LogEntry) :=
  match handle_keyboard_event_body sys ev with
  | .ok r => .ok r
  | .error e =>
    match ev.key with
    | some k => .ok ([], [LogEntry.keyboardError k e])
    | none => .error "KeyError: key"

/-! ## Replay side: loading and the timed playback loop -/

/-- A loaded event tagged with the stream it came from, as built by
`GameplayPlayer.load_replay` (`(\x27mouse\x27, e)` / `(\x27keyboard\x27, e)`). -/
inductive TaggedEvent where
  | mouse (e : MouseEvent)
  | keyboard (e : KeyboardEvent)
deriving DecidableEq, Repr

/-- `event_data[\x27timestamp\x27]`, the sort key of `load_replay`. -/
def TaggedEvent.timestamp : TaggedEvent → ℚ
  | .mouse e => e.timestamp
  | .keyboard e => e.timestamp

/-- The comparison used by Python's stable `sorted` with
`key=lambda x: x[1][\x27timestamp\x27]`. -/
def timeLE (a b : TaggedEvent) : Bool :=
  decide (a.timestamp ≤ b.timestamp)

/-- The merge performed by `load_replay`: mouse-stream events appended
first, keyboard-stream events second, then a stable sort by timestamp
(Python's `sorted` is documented stable; `List.mergeSort` is the stable
sort, so they compute the same list). -/
def mergeEvents (mes : List MouseEvent) (kes : List KeyboardEvent) :
    List TaggedEvent :=
  ((mes.map TaggedEvent.mouse) ++ (kes.map TaggedEvent.keyboard)).mergeSort timeLE

/-- The failure conditions of `load_replay`: `FileNotFoundError`, and
the corrupt-content conditions (`json.JSONDecodeError`, `KeyError` on a
required top-level field). -/
inductive LoadError where
  | notFound (path : String)
  | corrupt (msg : String)
deriving DecidableEq, Repr

/-- The parsed JSON document of a recording file; `none` fields model
absent keys. -/
structure ReplayData where
  mouse_events : Option (List MouseEvent) := none
  keyboard_events : Option (List KeyboardEvent) := none
  total_duration : Option ℚ := none
  record_date : Option String := none

/-- `GameplayPlayer.load_replay`.  `fs` models the file system
(`none` = path does not exist) and `parse` the JSON parser
(`none` = unparseable content).  The summary print dereferences
`data[\x27total_duration\x27]` after the sort, so that missing field is
also a corrupt-recording failure.  No `Injection` is ever produced
here. -/
def load_replay (fs : String → Option String)
    (parse : String → Option ReplayData) (path : String) :
    Except LoadError (List TaggedEvent) :=
  match fs path with
  | none => .error (.notFound path)
  | some content =>
    match parse content with
    | none => .error (.corrupt "unparseable JSON")
    | some data =>
      match data.mouse_events with
      | none => .error (.corrupt "KeyError: mouse_events")
      | some mes =>
        match data.keyboard_events with
        | none => .error (.corrupt "KeyError: keyboard_events")
        | some kes =>
          let events := mergeEvents mes kes
          match data.total_duration with
          | none => .error (.corrupt "KeyError: total_duration")
          | some _ => .ok events

/-- Everything the playback loop of `GameplayPlayer.play` produces:
the injection calls in order, the printed warnings, the sleep performed
before each dispatched event, the final elapsed clock (relative to the
`t0` snapshotted at playback start, with instantaneous injection calls),
the number of events handled to completion, and — when a handler lets an
exception escape — the exception that aborted the loop. -/
structure PlayOutcome where
  injections : List Injection := []
  logs : List LogEntry := []
  sleeps : List ℚ := []
  clock : ℚ := 0
  played : Nat := 0
  aborted : Option String := none
  final : PlayerState := {}
deriving DecidableEq, Repr

/-- The `for event_type, event_data in self.events` loop of
`GameplayPlayer.play`: sleep up to the event's timestamp, dispatch,
count.  An exception escaping `_handle_keyboard_event` propagates out
of the loop, dropping all remaining events. -/
def playLoop (sys : Sys) (sens : ℚ) :
    PlayerState → ℚ → List TaggedEvent → PlayOutcome
  | ps, clock, [] => { clock := clock, final := ps }
  | ps, clock, ev :: rest =>
    let target := ev.timestamp
    let sleep := if clock < target then target - clock else 0
    let clock := clock + sleep
    match ev with
    | .mouse m =>
      let r := handle_mouse_event sens ps m
      let out := playLoop sys sens r.1 clock rest
      { out with
        injections := r.2.1 ++ out.injections
        logs := r.2.2 ++ out.logs
        sleeps := sleep :: out.sleeps
        played := out.played + 1 }
    | .keyboard k =>
      match handle_keyboard_event sys k with
      | .ok (inj, lg) =>
        let out := playLoop sys sens ps clock rest
        { out with
          injections := inj ++ out.injections
          logs := lg ++ out.logs
          sleeps := sleep :: out.sleeps
          played := out.played + 1 }
      | .error e =>
        { sleeps := [sleep], clock := clock, aborted := some e, final := ps }

/-- `GameplayPlayer.play` for a freshly constructed player whose
`events` list is `preloaded` (empty unless a caller loaded it first):
load on demand, then run the loop from a fresh `t0`.  A load failure is
raised to the caller before the loop — and hence before any injection —
runs. -/
def play (sys : Sys) (fs : String → Option String)
    (parse : String → Option ReplayData) (path : String)
    (preloaded : List TaggedEvent) (sens : ℚ) :
    Except LoadError PlayOutcome := do
  let events ← if preloaded.isEmpty then load_replay fs parse path
               else .ok preloaded
  .ok (playLoop sys sens {} 0 events)

/-! ## The per-axis accumulator, factored out of the mouse handler -/

/-- One axis of the carry accumulator of `_handle_mouse_event`: add the
scaled delta, truncate toward zero, carry the fraction, and force a
±1 unit when truncation stalls at a remainder of magnitude ≥ 0.8. -/
def axisStep (acc δ : ℚ) : ℤ × ℚ :=
  let a := acc + δ
  let d := pyTrunc a
  let a := a - d
  if d = 0 ∧ 4/5 ≤ abs a then
    let f : ℤ := if 0 < a then 1 else -1
    (f, a - f)
  else (d, a)

/-- Iterate `axisStep` with a constant per-event delta, returning the
final remainder and the total injected motion. -/
def runAxisFrom (δ : ℚ) : ℚ → Nat → ℚ × ℤ
  | acc, 0 => (acc, 0)
  | acc, n + 1 =>
    let s := axisStep acc δ
    let r := runAxisFrom δ s.2 n
    (r.1, s.1 + r.2)

/-! ## Auxiliary definitions for the theorems -/

/-- A keyboard listener notification: press or release of a key at a
monotonic-clock instant. -/
inductive KeyNotif where
  | press (now : ℚ) (key : PyKey)
  | release (now : ℚ) (key : PyKey)
deriving DecidableEq, Repr

/-- The key carried by a notification. -/
def notifKey : KeyNotif → PyKey
  | .press _ k => k
  | .release _ k => k

/-- Dispatch one notification to the recorder's handler. -/
def applyKeyNotif (pyIsAlpha : Char → Bool) (n : KeyNotif)
    (st : RecorderState) : RecorderState :=
  match n with
  | .press now k => on_key_press pyIsAlpha now k st
  | .release now k => on_key_release pyIsAlpha now k st

/-- Run a whole sequence of keyboard notifications through the recorder. -/
def runKeys (pyIsAlpha : Char → Bool) :
    List KeyNotif → RecorderState → RecorderState
  | [], st => st
  | n :: ns, st => runKeys pyIsAlpha ns (applyKeyNotif pyIsAlpha n st)

/-- The event a non-reserved notification contributes to the stream,
relative to the session start `t0`. -/
def notifEvent (pyIsAlpha : Char → Bool) (t0 : ℚ) : KeyNotif → KeyboardEvent
  | .press now k =>
    { type := some "press", key := some (key_to_string pyIsAlpha k),
      pressed := some true, timestamp := now - t0 }
  | .release now k =>
    { type := some "release", key := some (key_to_string pyIsAlpha k),
      pressed := some false, timestamp := now - t0 }

/-- Whether a merged event came from the pointer stream. -/
def isMouseTag : TaggedEvent → Bool
  | .mouse _ => true
  | .keyboard _ => false

/-- Total injected horizontal pointer motion of an injection trace. -/
def sumDx : List Injection → ℤ
  | [] => 0
  | Injection.moveRel dx _ :: rest => dx + sumDx rest
  | _ :: rest => sumDx rest

/-- A benign recorded key event: pressing the letter `a`. -/
def pressA : KeyboardEvent :=
  { type := some "press", key := some "a", pressed := some true,
    timestamp := 0 }

/-- The spec's resilience scenario event: a key token with no scan-code
mapping. -/
def pressUnknown : KeyboardEvent :=
  { type := some "press", key := some "unknown_token_zz",
    pressed := some true, timestamp := 0 }

/-- A keyboard record missing its `key` field. -/
def pressKeyless : KeyboardEvent :=
  { type := some "press", pressed := some true, timestamp := 0 }

/-- The spec's resilience recording: one unresolvable key token among
50 events. -/
def resilienceEvents : List TaggedEvent :=
  List.replicate 25 (TaggedEvent.keyboard pressA) ++
    [TaggedEvent.keyboard pressUnknown] ++
    List.replicate 24 (TaggedEvent.keyboard pressA)

/-- A concrete system oracle for closed runs: `MapVirtualKeyA` finds no
mapping and `int()` always fails. -/
def sysNull : Sys := ⟨fun _ => 0, fun _ => none⟩

/-- A recorded `MoveRelative{dx=1, dy=0}` event, as in the anti-stall
scenario. -/
def dxOneEvent : MouseEvent :=
  { type := some "move_relative", dx := some 1, dy := some 0,
    timestamp := 0 }

/-! ## Theorems -/

/-- C10: replayed scroll injection discharges only the vertical axis.
Dispatching a `Scroll{dx,dy}` event calls the port's `scroll`, which
injects `dy * 120` wheel units independently of `dx`, and injects
nothing at all when `dy = 0`. -/
theorem scroll_vertical_only (dx dy : Int) (ev : MouseEvent) (sens : ℚ)
    (ps : PlayerState) (hty : ev.type = some "scroll")
    (hdx : ev.dx = some dx) (hdy : ev.dy = some dy) :
    handle_mouse_event sens ps ev = (ps, scroll dx dy, []) ∧
    scroll dx dy = (if dy = 0 then [] else [Injection.wheel (dy * 120)]) ∧
    (∀ dx' : Int, scroll dx' dy = scroll dx dy) := by
  refine ⟨?_, ?_, fun dx' => rfl⟩
  · simp [handle_mouse_event, handle_mouse_event_body, keyField, hty, hdx, hdy,
      bind, Except.bind, pure, Except.pure]
  · by_cases h : dy = 0 <;> simp [scroll, h]

/-- Witness for C10 at the concrete event `Scroll{dx=3, dy=0}`. -/
theorem scroll_vertical_only_witness :
    handle_mouse_event 1 {}
        { type := some "scroll", dx := some 3, dy := some 0, timestamp := 0 } =
      ({}, scroll 3 0, []) ∧
    scroll 3 0 = (if (0 : Int) = 0 then [] else [Injection.wheel (0 * 120)]) ∧
    (∀ dx' : Int, scroll dx' 0 = scroll 3 0) :=
  scroll_vertical_only 3 0 _ 1 {} rfl rfl rfl

/-- A pointer sample while idle changes nothing. -/
theorem on_mouse_move_not_recording (now : ℚ) (x y : Int)
    (st : RecorderState) (h : st.recording = false) :
    on_mouse_move now x y st = st := by
  simp [on_mouse_move, h]

/-- A pointer sample while recording keeps the flag and stores the new
baseline. -/
theorem on_mouse_move_fields (now : ℚ) (x y : Int) (st : RecorderState)
    (h : st.recording = true) :
    (on_mouse_move now x y st).recording = true ∧
    (on_mouse_move now x y st).last_mouse_position = some (x, y) := by
  refine ⟨?_, ?_⟩ <;> simp only [on_mouse_move, h, if_true]
  rcases hl : st.last_mouse_position with _ | ⟨lx, ly⟩
  · exact h
  · by_cases hd : x - lx ≠ 0 ∨ y - ly ≠ 0 <;> simp [hd, h]

/-- C5: while recording, the first pointer sample is only stored as the
baseline (nothing appended), a later sample appends a `move_relative`
event exactly when its delta from the last observed position is
non-zero, and two identical consecutive positions never append. -/
theorem mouse_move_zero_delta_suppression :
    (∀ (now : ℚ) (x y : Int) (st : RecorderState), st.recording = true →
        st.last_mouse_position = none →
        (on_mouse_move now x y st).mouse_events = st.mouse_events ∧
        (on_mouse_move now x y st).last_mouse_position = some (x, y)) ∧
    (∀ (now : ℚ) (x y lx ly : Int) (st : RecorderState), st.recording = true →
        st.last_mouse_position = some (lx, ly) →
        (on_mouse_move now x y st).mouse_events =
          (if x - lx ≠ 0 ∨ y - ly ≠ 0 then
            st.mouse_events ++
              [({ type := some "move_relative", dx := some (x - lx),
                  dy := some (y - ly),
                  timestamp := now - st.start_time.getD 0 } : MouseEvent)]
           else st.mouse_events)) ∧
    (∀ (now now' : ℚ) (x y : Int) (st : RecorderState),
        (on_mouse_move now' x y (on_mouse_move now x y st)).mouse_events =
          (on_mouse_move now x y st).mouse_events) := by
  refine ⟨?_, ?_, ?_⟩
  · intro now x y st hrec hlast
    simp [on_mouse_move, hrec, hlast]
  · intro now x y lx ly st hrec hlast
    simp only [on_mouse_move, hrec, hlast, if_true]
    split <;> simp_all
  · intro now now' x y st
    by_cases hrec : st.recording = true
    · obtain ⟨h1, h2⟩ := on_mouse_move_fields now x y st hrec
      set st1 := on_mouse_move now x y st with hst1
      simp [on_mouse_move, h1, h2]
    · rw [Bool.not_eq_true] at hrec
      rw [on_mouse_move_not_recording now x y st hrec,
        on_mouse_move_not_recording now' x y st hrec]

/-- Witness for C5 at a concrete state: fresh baseline, a genuine move,
then an identical position. -/
theorem mouse_move_zero_delta_suppression_witness :
    ((on_mouse_move 1 10 20 { recording := true }).mouse_events = [] ∧
      (on_mouse_move 1 10 20 { recording := true }).last_mouse_position =
        some (10, 20)) ∧
    ((on_mouse_move 2 13 24
          { recording := true,
            last_mouse_position := some (10, 20) }).mouse_events =
        (if (13 : Int) - 10 ≠ 0 ∨ (24 : Int) - 20 ≠ 0 then
          ([] : List MouseEvent) ++
            [({ type := some "move_relative", dx := some (13 - 10),
                dy := some (24 - 20),
                timestamp := 2 - (Option.getD none 0 : ℚ) } : MouseEvent)]
         else [])) ∧
    (on_mouse_move 3 13 24 (on_mouse_move 2 13 24
        { recording := true })).mouse_events =
      (on_mouse_move 2 13 24 ({ recording := true } : RecorderState)).mouse_events := by
  refine ⟨?_, ?_, ?_⟩
  · exact mouse_move_zero_delta_suppression.1 1 10 20 { recording := true } rfl rfl
  · exact mouse_move_zero_delta_suppression.2.1 2 13 24 10 20
      { recording := true, last_mouse_position := some (10, 20) } rfl rfl
  · exact mouse_move_zero_delta_suppression.2.2 2 3 13 24 { recording := true }

/-- C9: the capture session's start/stop are idempotent on the
Idle/Recording state machine: `start` while recording changes nothing,
`stop` while idle changes nothing (and writes no file), and a
successful `start` clears both event sequences, snapshots the monotonic
clock, generates the filename from the wall clock and flips the state
to Recording. -/
theorem start_stop_idempotent :
    (∀ (mono wall : ℚ) (stamp : String) (st : RecorderState),
        st.recording = true → start_recording mono wall stamp st = st) ∧
    (∀ (mono : ℚ) (st : RecorderState), st.recording = false →
        stop_recording mono st = (st, none)) ∧
    (∀ (mono wall : ℚ) (stamp : String) (st : RecorderState),
        st.recording = false →
        (start_recording mono wall stamp st).mouse_events = [] ∧
        (start_recording mono wall stamp st).keyboard_events = [] ∧
        (start_recording mono wall stamp st).start_time = some mono ∧
        (start_recording mono wall stamp st).filename =
          some ("replay_" ++ stamp ++ ".json") ∧
        (start_recording mono wall stamp st).recording = true) := by
  refine ⟨?_, ?_, ?_⟩
  · intro mono wall stamp st h
    simp [start_recording, h]
  · intro mono st h
    simp [stop_recording, h]
  · intro mono wall stamp st h
    simp [start_recording, h]

/-- Witness for C9 at concrete states on both sides of the flag. -/
theorem start_stop_idempotent_witness :
    start_recording 5 100 "2024-01-01_00-00-00"
        { recording := true, filename := some "keep.json" } =
      { recording := true, filename := some "keep.json" } ∧
    stop_recording 9 {} = ({}, none) ∧
    ((start_recording 5 100 "2024-01-01_00-00-00"
        { mouse_events := [{ type := some "click" }] }).mouse_events = [] ∧
      (start_recording 5 100 "2024-01-01_00-00-00"
        { mouse_events := [{ type := some "click" }] }).keyboard_events = [] ∧
      (start_recording 5 100 "2024-01-01_00-00-00"
        { mouse_events := [{ type := some "click" }] }).start_time = some 5 ∧
      (start_recording 5 100 "2024-01-01_00-00-00"
        { mouse_events := [{ type := some "click" }] }).filename =
        some ("replay_" ++ "2024-01-01_00-00-00" ++ ".json") ∧
      (start_recording 5 100 "2024-01-01_00-00-00"
        { mouse_events := [{ type := some "click" }] }).recording = true) :=
  ⟨start_stop_idempotent.1 5 100 "2024-01-01_00-00-00"
      { recording := true, filename := some "keep.json" } rfl,
   start_stop_idempotent.2.1 9 {} rfl,
   start_stop_idempotent.2.2 5 100 "2024-01-01_00-00-00"
      { mouse_events := [{ type := some "click" }] } rfl⟩

/-- One keyboard notification while recording: reserved keys contribute
nothing, every other key appends exactly its event; the recording flag
and the session clock are untouched. -/
theorem applyKeyNotif_fields (pyIsAlpha : Char → Bool) (n : KeyNotif)
    (st : RecorderState) (h : st.recording = true) :
    (applyKeyNotif pyIsAlpha n st).recording = true ∧
    (applyKeyNotif pyIsAlpha n st).start_time = st.start_time ∧
    (applyKeyNotif pyIsAlpha n st).keyboard_events =
      st.keyboard_events ++
        (if reservedKey (notifKey n) then []
         else [notifEvent pyIsAlpha (st.start_time.getD 0) n]) := by
  cases n with
  | press now k =>
    by_cases hr : reservedKey k <;>
      simp [applyKeyNotif, on_key_press, notifKey, notifEvent, h, hr]
  | release now k =>
    by_cases hr : reservedKey k <;>
      simp [applyKeyNotif, on_key_release, notifKey, notifEvent, h, hr]

/-- C6: the two reserved start/stop hotkeys (`F9`, `F10`) never reach
the recorded key-event stream.  Pressing or releasing a reserved key is
a strict no-op on the recorder state, unconditionally; and over any
notification sequence delivered while recording, the stream grows by
exactly the non-reserved transitions, in order. -/
theorem reserved_hotkeys_never_recorded (pyIsAlpha : Char → Bool) :
    (∀ (now : ℚ) (key : PyKey) (st : RecorderState), reservedKey key →
        on_key_press pyIsAlpha now key st = st ∧
        on_key_release pyIsAlpha now key st = st) ∧
    (∀ (ns : List KeyNotif) (st : RecorderState), st.recording = true →
        (runKeys pyIsAlpha ns st).keyboard_events =
          st.keyboard_events ++
            (ns.filter (fun n => decide (¬ reservedKey (notifKey n)))).map
              (notifEvent pyIsAlpha (st.start_time.getD 0))) := by
  constructor
  · intro now key st h
    by_cases hrec : st.recording = true <;>
      constructor <;> simp [on_key_press, on_key_release, hrec, h]
  · intro ns
    induction ns with
    | nil => intro st _; simp [runKeys]
    | cons n ns ih =>
      intro st hrec
      obtain ⟨h1, h2, h3⟩ := applyKeyNotif_fields pyIsAlpha n st hrec
      rw [runKeys, ih _ h1, h3, h2]
      by_cases hr : reservedKey (notifKey n) <;>
        simp [hr, List.filter_cons, List.append_assoc]

/-- Witness for C6: `F9` press is a no-op, and a two-notification run
(`F10` then the letter `q`) appends only the `q` transition. -/
theorem reserved_hotkeys_never_recorded_witness :
    (on_key_press (fun _ => true) 1 (.special "f9") { recording := true } =
        { recording := true } ∧
      on_key_release (fun _ => true) 1 (.special "f9") { recording := true } =
        { recording := true }) ∧
    (runKeys (fun _ => true)
        [.press 2 (.special "f10"), .press 3 (.special "q")]
        { recording := true }).keyboard_events =
      ([] : List KeyboardEvent) ++
        (([.press 2 (.special "f10"), .press 3 (.special "q")] :
            List KeyNotif).filter
          (fun n => decide (¬ reservedKey (notifKey n)))).map
          (notifEvent (fun _ => true)
            (({ recording := true } : RecorderState).start_time.getD 0)) :=
  ⟨(reserved_hotkeys_never_recorded (fun _ => true)).1 1 (.special "f9")
      { recording := true } (Or.inl rfl),
   (reserved_hotkeys_never_recorded (fun _ => true)).2
      [.press 2 (.special "f10"), .press 3 (.special "q")]
      { recording := true } rfl⟩

/-- C7: key canonicalization is layout-portable.  An alphabetic
character key whose virtual-key code lies in the secondary-layout range
`192..217` canonicalizes to the same name as its Latin-layout
equivalent (code `vk - 127`, in `65..90`), and that name is a single
lowercase Latin letter; a code in the secondary range `192..255` with
no table entry becomes the raw-code fallback token. -/
theorem secondary_layout_canonicalization (pyIsAlpha : Char → Bool) :
    (∀ (vk : Int) (c c' : Char), 192 ≤ vk → vk ≤ 217 →
        pyIsAlpha c = true → pyIsAlpha c' = true →
        (key_to_string pyIsAlpha (.code vk (some c)) =
          key_to_string pyIsAlpha (.code (vk - 127) (some c')) ∧
        ∃ l : Char, l.isLower = true ∧
          key_to_string pyIsAlpha (.code vk (some c)) = String.singleton l)) ∧
    (∀ (vk : Int) (c : Char), 192 ≤ vk → vk ≤ 255 →
        russian_to_english.lookup vk = none → pyIsAlpha c = true →
        key_to_string pyIsAlpha (.code vk (some c)) = keyCodeFallback vk) := by
  constructor
  · intro vk c c' h1 h2 hc hc'
    obtain ⟨k, hk, rfl⟩ : ∃ k : ℕ, k ≤ 25 ∧ vk = 192 + (k : ℤ) :=
      ⟨(vk - 192).toNat, by omega, by omega⟩
    refine ⟨?_, Char.ofNat (97 + k), ?_, ?_⟩ <;>
      interval_cases k <;>
        simp [key_to_string, hc, hc', russian_to_english, keyCodeFallback] <;>
          decide
  · intro vk c h1 h2 hl hc
    have hA : ¬(65 ≤ vk ∧ vk ≤ 90) := by omega
    have hB : 192 ≤ vk ∧ vk ≤ 255 := ⟨h1, h2⟩
    simp [key_to_string, hc, hA, hB, hl]

/-- Witness for C7: code 198 (secondary layout) canonicalizes like code
71 = `G`, to `"g"`; code 240 has no table entry and falls back. -/
theorem secondary_layout_canonicalization_witness :
    (key_to_string (fun _ => true) (.code 198 (some 'ф')) =
        key_to_string (fun _ => true) (.code (198 - 127) (some 'G')) ∧
      ∃ l : Char, l.isLower = true ∧
        key_to_string (fun _ => true) (.code 198 (some 'ф')) =
          String.singleton l) ∧
    key_to_string (fun _ => true) (.code 240 (some 'ф')) =
      keyCodeFallback 240 :=
  ⟨(secondary_layout_canonicalization (fun _ => true)).1 198 'ф' 'G'
      (by norm_num) (by norm_num) rfl rfl,
   (secondary_layout_canonicalization (fun _ => true)).2 240 'ф'
      (by norm_num) (by norm_num) (by decide) rfl⟩

open scoped List

/-- The sort comparison is transitive. -/
theorem timeLE_trans : ∀ (a b c : TaggedEvent),
    timeLE a b → timeLE b c → timeLE a c := by
  intro a b c hab hbc
  simp only [timeLE, decide_eq_true_eq] at *
  exact le_trans hab hbc

/-- The sort comparison is total. -/
theorem timeLE_total : ∀ (a b : TaggedEvent), timeLE a b || timeLE b a := by
  intro a b
  simp only [timeLE, Bool.or_eq_true, decide_eq_true_eq]
  exact le_total _ _

/-- What the merged input list looks like when filtered back to the
pointer stream. -/
theorem filter_isMouseTag_input (mes : List MouseEvent)
    (kes : List KeyboardEvent) :
    (mes.map TaggedEvent.mouse ++ kes.map TaggedEvent.keyboard).filter
        isMouseTag = mes.map TaggedEvent.mouse := by
  induction mes with
  | nil =>
    induction kes with
    | nil => rfl
    | cons k ks ihk => simpa [isMouseTag] using ihk
  | cons m ms ihm => simpa [isMouseTag] using ihm

/-- C3: `load_replay` merges the two streams with a stable sort by
timestamp.  For streams whose timestamps are non-decreasing (the
recorder's invariant for every recording it writes): the merged
sequence is sorted by timestamp (so distinct timestamps appear in
order), restricting it to the pointer stream gives back exactly that
stream (relative order preserved; likewise the key stream embeds as a
sublist), and for a pointer event and a key event with the same
timestamp the pointer event comes first. -/
theorem merge_stable_ordering (mes : List MouseEvent)
    (kes : List KeyboardEvent)
    (hm : mes.Pairwise (fun a b => a.timestamp ≤ b.timestamp))
    (hk : kes.Pairwise (fun a b => a.timestamp ≤ b.timestamp)) :
    (mergeEvents mes kes).Pairwise
      (fun a b => a.timestamp ≤ b.timestamp) ∧
    (mergeEvents mes kes).filter isMouseTag = mes.map TaggedEvent.mouse ∧
    (mes.map TaggedEvent.mouse) <+ mergeEvents mes kes ∧
    (kes.map TaggedEvent.keyboard) <+ mergeEvents mes kes ∧
    (∀ p ∈ mes, ∀ k ∈ kes, p.timestamp = k.timestamp →
        [TaggedEvent.mouse p, TaggedEvent.keyboard k] <+
          mergeEvents mes kes) := by
  have hmp : (mes.map TaggedEvent.mouse).Pairwise
      (fun a b => timeLE a b = true) :=
    List.pairwise_map.mpr (hm.imp fun h => by
      simpa [timeLE, TaggedEvent.timestamp] using h)
  have hkp : (kes.map TaggedEvent.keyboard).Pairwise
      (fun a b => timeLE a b = true) :=
    List.pairwise_map.mpr (hk.imp fun h => by
      simpa [timeLE, TaggedEvent.timestamp] using h)
  have hmouse : (mes.map TaggedEvent.mouse) <+ mergeEvents mes kes :=
    List.sublist_mergeSort timeLE_trans timeLE_total hmp
      (List.sublist_append_left _ _)
  have hkey : (kes.map TaggedEvent.keyboard) <+ mergeEvents mes kes :=
    List.sublist_mergeSort timeLE_trans timeLE_total hkp
      (List.sublist_append_right _ _)
  refine ⟨?_, ?_, hmouse, hkey, ?_⟩
  · exact (List.sorted_mergeSort timeLE_trans timeLE_total _).imp
      fun h => by simpa [timeLE] using h
  · have hperm := (List.mergeSort_perm
      (mes.map TaggedEvent.mouse ++ kes.map TaggedEvent.keyboard)
      timeLE).filter isMouseTag
    rw [filter_isMouseTag_input] at hperm
    have hsubf := hmouse.filter isMouseTag
    have hself : (mes.map TaggedEvent.mouse).filter isMouseTag =
        mes.map TaggedEvent.mouse := by
      simpa using filter_isMouseTag_input mes []
    rw [hself] at hsubf
    exact (hsubf.eq_of_length (hperm.length_eq).symm).symm
  · intro p hp k hkm heq
    refine List.pair_sublist_mergeSort timeLE_trans timeLE_total ?_ ?_
    · simp [timeLE, TaggedEvent.timestamp, heq]
    · exact List.Sublist.append
        (List.singleton_sublist.mpr (List.mem_map_of_mem _ hp))
        (List.singleton_sublist.mpr (List.mem_map_of_mem _ hkm))

/-- Witness for C3: a two-event pointer stream and a one-event key
stream, all sharing timestamp `1`, so the tie-breaking clause bites. -/
theorem merge_stable_ordering_witness :
    ((mergeEvents [{ type := some "click", timestamp := 1 },
          { type := some "scroll", timestamp := 1 }]
        [{ type := some "press", timestamp := 1 }]).Pairwise
      (fun a b => a.timestamp ≤ b.timestamp) ∧
    (mergeEvents [{ type := some "click", timestamp := 1 },
          { type := some "scroll", timestamp := 1 }]
        [{ type := some "press", timestamp := 1 }]).filter isMouseTag =
      [({ type := some "click", timestamp := 1 } : MouseEvent),
        { type := some "scroll", timestamp := 1 }].map TaggedEvent.mouse ∧
    ([({ type := some "click", timestamp := 1 } : MouseEvent),
        { type := some "scroll", timestamp := 1 }].map TaggedEvent.mouse) <+
      mergeEvents [{ type := some "click", timestamp := 1 },
          { type := some "scroll", timestamp := 1 }]
        [{ type := some "press", timestamp := 1 }] ∧
    ([({ type := some "press", timestamp := 1 } : KeyboardEvent)].map
        TaggedEvent.keyboard) <+
      mergeEvents [{ type := some "click", timestamp := 1 },
          { type := some "scroll", timestamp := 1 }]
        [{ type := some "press", timestamp := 1 }] ∧
    (∀ p ∈ [({ type := some "click", timestamp := 1 } : MouseEvent),
          { type := some "scroll", timestamp := 1 }],
      ∀ k ∈ [({ type := some "press", timestamp := 1 } : KeyboardEvent)],
        p.timestamp = k.timestamp →
        [TaggedEvent.mouse p, TaggedEvent.keyboard k] <+
          mergeEvents [{ type := some "click", timestamp := 1 },
              { type := some "scroll", timestamp := 1 }]
            [{ type := some "press", timestamp := 1 }])) :=
  merge_stable_ordering
    [{ type := some "click", timestamp := 1 },
      { type := some "scroll", timestamp := 1 }]
    [{ type := some "press", timestamp := 1 }]
    (by decide) (by decide)

/-- C4: `play()` on a missing file fails with the NotFound condition;
on unparseable content or a required field missing it fails with the
Corrupt condition.  In every case `play` returns the error instead of a
`PlayOutcome`, so the failure reaches the caller before the playback
loop — and hence before any injection call — runs (`load_replay` itself
produces no `Injection`, as its type shows). -/
theorem load_failures_before_injection (sys : Sys)
    (fs : String → Option String) (parse : String → Option ReplayData)
    (path : String) (sens : ℚ) :
    (fs path = none →
        play sys fs parse path [] sens = .error (.notFound path)) ∧
    (∀ content, fs path = some content → parse content = none →
        play sys fs parse path [] sens =
          .error (.corrupt "unparseable JSON")) ∧
    (∀ content data, fs path = some content → parse content = some data →
        data.mouse_events = none →
        play sys fs parse path [] sens =
          .error (.corrupt "KeyError: mouse_events")) ∧
    (∀ content data mes, fs path = some content →
        parse content = some data → data.mouse_events = some mes →
        data.keyboard_events = none →
        play sys fs parse path [] sens =
          .error (.corrupt "KeyError: keyboard_events")) ∧
    (∀ content data mes kes, fs path = some content →
        parse content = some data → data.mouse_events = some mes →
        data.keyboard_events = some kes → data.total_duration = none →
        play sys fs parse path [] sens =
          .error (.corrupt "KeyError: total_duration")) ∧
    (∀ e, load_replay fs parse path = .error e →
        play sys fs parse path [] sens = .error e) := by
  refine ⟨?_, ?_, ?_, ?_, ?_, ?_⟩
  · intro h
    simp [play, load_replay, h, bind, Except.bind]
  · intro content h1 h2
    simp [play, load_replay, h1, h2, bind, Except.bind]
  · intro content data h1 h2 h3
    simp [play, load_replay, h1, h2, h3, bind, Except.bind]
  · intro content data mes h1 h2 h3 h4
    simp [play, load_replay, h1, h2, h3, h4, bind, Except.bind]
  · intro content data mes kes h1 h2 h3 h4 h5
    simp [play, load_replay, h1, h2, h3, h4, h5, bind, Except.bind]
  · intro e h
    simp [play, h, bind, Except.bind]

/-- Witness for C4: a missing file, an unparseable file, and files with
each required field absent, and the fatality of a load error. -/
theorem load_failures_before_injection_witness :
    (play ⟨fun _ => 0, fun _ => none⟩ (fun _ => none) (fun _ => none)
        "r.json" [] 1 = .error (.notFound "r.json")) ∧
    (play ⟨fun _ => 0, fun _ => none⟩ (fun _ => some "garbage")
        (fun _ => none) "r.json" [] 1 =
      .error (.corrupt "unparseable JSON")) ∧
    (play ⟨fun _ => 0, fun _ => none⟩ (fun _ => some "x")
        (fun _ => some {}) "r.json" [] 1 =
      .error (.corrupt "KeyError: mouse_events")) ∧
    (play ⟨fun _ => 0, fun _ => none⟩ (fun _ => some "x")
        (fun _ => some { mouse_events := some [] }) "r.json" [] 1 =
      .error (.corrupt "KeyError: keyboard_events")) ∧
    (play ⟨fun _ => 0, fun _ => none⟩ (fun _ => some "x")
        (fun _ => some { mouse_events := some [],
                         keyboard_events := some [] }) "r.json" [] 1 =
      .error (.corrupt "KeyError: total_duration")) ∧
    (load_replay (fun _ => none) (fun _ => none) "r.json" =
          .error (.notFound "r.json") →
        play ⟨fun _ => 0, fun _ => none⟩ (fun _ => none) (fun _ => none)
          "r.json" [] 1 = .error (.notFound "r.json")) :=
  ⟨(load_failures_before_injection ⟨fun _ => 0, fun _ => none⟩
      (fun _ => none) (fun _ => none) "r.json" 1).1 rfl,
   (load_failures_before_injection ⟨fun _ => 0, fun _ => none⟩
      (fun _ => some "garbage") (fun _ => none) "r.json" 1).2.1
      "garbage" rfl rfl,
   (load_failures_before_injection ⟨fun _ => 0, fun _ => none⟩
      (fun _ => some "x") (fun _ => some {}) "r.json" 1).2.2.1
      "x" {} rfl rfl rfl,
   (load_failures_before_injection ⟨fun _ => 0, fun _ => none⟩
      (fun _ => some "x") (fun _ => some { mouse_events := some [] })
      "r.json" 1).2.2.2.1 "x" { mouse_events := some [] } [] rfl rfl rfl rfl,
   (load_failures_before_injection ⟨fun _ => 0, fun _ => none⟩
      (fun _ => some "x")
      (fun _ => some { mouse_events := some [], keyboard_events := some [] })
      "r.json" 1).2.2.2.2.1 "x"
      { mouse_events := some [], keyboard_events := some [] } [] [] rfl rfl
      rfl rfl rfl,
   (load_failures_before_injection ⟨fun _ => 0, fun _ => none⟩
      (fun _ => none) (fun _ => none) "r.json" 1).2.2.2.2.2
      (.notFound "r.json")⟩

/-- A keyboard event that carries its `key` field is always handled to
completion: the `except` wrapper turns any raised error into a logged
message, so nothing escapes the handler. -/
theorem handle_keyboard_event_ok_of_key (sys : Sys) (k : KeyboardEvent)
    (h : k.key.isSome) : ∃ r, handle_keyboard_event sys k = .ok r := by
  obtain ⟨s, hs⟩ := Option.isSome_iff_exists.mp h
  rcases hb : handle_keyboard_event_body sys k with e | r
  · refine ⟨([], [LogEntry.keyboardError s e]), ?_⟩
    simp [handle_keyboard_event, hb, hs]
  · refine ⟨r, ?_⟩
    simp [handle_keyboard_event, hb]

/-- The first sleep of a playback run is exactly
`max 0 (target - elapsed)`: the loop sleeps the shortfall when behind
the recorded cadence and not at all otherwise, before dispatching. -/
theorem playLoop_first_sleep (sys : Sys) (sens : ℚ) (ps : PlayerState)
    (c : ℚ) (ev : TaggedEvent) (rest : List TaggedEvent) :
    (playLoop sys sens ps c (ev :: rest)).sleeps.head? =
      some (if c < ev.timestamp then ev.timestamp - c else 0) := by
  cases ev with
  | mouse m => simp [playLoop]
  | keyboard k =>
    rcases h : handle_keyboard_event sys k with e | ⟨inj, lg⟩ <;>
      simp [playLoop, h]

/-- When every keyboard event of the recording carries its `key` field,
the loop never aborts, handles every event exactly once (one sleep
decision per event), and finishes with the elapsed clock at least every
event's timestamp and at least the starting clock. -/
theorem playLoop_no_abort (sys : Sys) (sens : ℚ) :
    ∀ (events : List TaggedEvent) (ps : PlayerState) (c : ℚ),
    (∀ k, TaggedEvent.keyboard k ∈ events → k.key.isSome) →
    (playLoop sys sens ps c events).aborted = none ∧
    (playLoop sys sens ps c events).played = events.length ∧
    (playLoop sys sens ps c events).sleeps.length = events.length ∧
    (∀ ev ∈ events, ev.timestamp ≤ (playLoop sys sens ps c events).clock) ∧
    c ≤ (playLoop sys sens ps c events).clock := by
  intro events
  induction events with
  | nil => intro ps c _; simp [playLoop]
  | cons ev rest ih =>
    intro ps c hkeys
    have hrest : ∀ k, TaggedEvent.keyboard k ∈ rest → k.key.isSome :=
      fun k hk => hkeys k (List.mem_cons_of_mem _ hk)
    have hsleep : c ≤ c + (if c < ev.timestamp then ev.timestamp - c else 0) ∧
        ev.timestamp ≤ c + (if c < ev.timestamp then ev.timestamp - c else 0) := by
      constructor <;> split <;> linarith
    cases ev with
    | mouse m =>
      obtain ⟨h1, h2, h3, h4, h5⟩ := ih (handle_mouse_event sens ps m).1
        (c + (if c < (TaggedEvent.mouse m).timestamp
              then (TaggedEvent.mouse m).timestamp - c else 0)) hrest
      refine ⟨by simpa [playLoop] using h1, by simpa [playLoop] using h2,
        by simpa [playLoop] using h3, ?_, ?_⟩
      · intro e he
        rcases List.mem_cons.mp he with rfl | he'
        · simpa [playLoop] using le_trans hsleep.2 h5
        · simpa [playLoop] using h4 e he'
      · simpa [playLoop] using le_trans hsleep.1 h5
    | keyboard k =>
      obtain ⟨r, hr⟩ := handle_keyboard_event_ok_of_key sys k
        (hkeys k (List.mem_cons_self _ _))
      obtain ⟨h1, h2, h3, h4, h5⟩ := ih ps
        (c + (if c < (TaggedEvent.keyboard k).timestamp
              then (TaggedEvent.keyboard k).timestamp - c else 0)) hrest
      refine ⟨by simpa [playLoop, hr] using h1,
        by simpa [playLoop, hr] using h2,
        by simpa [playLoop, hr] using h3, ?_, ?_⟩
      · intro e he
        rcases List.mem_cons.mp he with rfl | he'
        · simpa [playLoop, hr] using le_trans hsleep.2 h5
        · simpa [playLoop, hr] using h4 e he'
      · simpa [playLoop, hr] using le_trans hsleep.1 h5

/-- C8 counterexample: the claim "every event is dispatched exactly
once" and the wall-time bound fail as stated.  A keyboard record with
no `key` field makes the handler's own logging raise, aborting the loop
at once: here a two-event recording whose last event has `t = 5` plays
0 of its 2 events and finishes at elapsed clock `0 < 5`. -/
theorem play_cadence_counterexample :
    (playLoop sysNull 1 {} 0
        [TaggedEvent.keyboard pressKeyless,
         TaggedEvent.mouse { type := some "move_relative", dx := some 1,
                             dy := some 0, timestamp := 5 }]).played = 0 ∧
    (playLoop sysNull 1 {} 0
        [TaggedEvent.keyboard pressKeyless,
         TaggedEvent.mouse { type := some "move_relative", dx := some 1,
                             dy := some 0, timestamp := 5 }]).clock = 0 ∧
    ¬(5 ≤ (playLoop sysNull 1 {} 0
        [TaggedEvent.keyboard pressKeyless,
         TaggedEvent.mouse { type := some "move_relative", dx := some 1,
                             dy := some 0, timestamp := 5 }]).clock) ∧
    (playLoop sysNull 1 {} 0
        [TaggedEvent.keyboard pressKeyless,
         TaggedEvent.mouse { type := some "move_relative", dx := some 1,
                             dy := some 0, timestamp := 5 }]).played ≠ 2 := by
  have hke : handle_keyboard_event sysNull
      { type := some "press", key := none, pressed := some true,
        timestamp := 0 } = .error "KeyError: key" := by
    simp [handle_keyboard_event, handle_keyboard_event_body, keyField,
      bind, Except.bind]
  refine ⟨?_, ?_, ?_, ?_⟩ <;>
    norm_num [playLoop, pressKeyless, hke, TaggedEvent.timestamp]

/-- C8 (amended): for each merged event, with `elapsed = now - t0`, the
loop sleeps exactly `target - elapsed` when behind and not at all
otherwise, never dropping events; and — provided every keyboard event
carries its `key` field, without which the C1 logging bug aborts
playback — every event is dispatched exactly once and the total wall
time (injections being instantaneous in the model) is at least every
event's timestamp, hence at least `5.0` for a recording whose last
event has `t = 5.0`. -/
theorem play_cadence (sys : Sys) (sens : ℚ) (events : List TaggedEvent)
    (ps : PlayerState) (c0 : ℚ)
    (hkeys : ∀ k, TaggedEvent.keyboard k ∈ events → k.key.isSome) :
    (∀ (ps' : PlayerState) (c : ℚ) (ev : TaggedEvent)
        (rest : List TaggedEvent),
        (playLoop sys sens ps' c (ev :: rest)).sleeps.head? =
          some (if c < ev.timestamp then ev.timestamp - c else 0)) ∧
    (playLoop sys sens ps c0 events).aborted = none ∧
    (playLoop sys sens ps c0 events).played = events.length ∧
    (playLoop sys sens ps c0 events).sleeps.length = events.length ∧
    (∀ ev ∈ events, ev.timestamp ≤ (playLoop sys sens ps c0 events).clock) ∧
    c0 ≤ (playLoop sys sens ps c0 events).clock := by
  obtain ⟨h1, h2, h3, h4, h5⟩ := playLoop_no_abort sys sens events ps c0 hkeys
  exact ⟨fun ps' c ev rest => playLoop_first_sleep sys sens ps' c ev rest,
    h1, h2, h3, h4, h5⟩

/-- Witness for C8: a two-event recording whose last event has `t = 5`
plays both events and takes at least `5` of modelled wall time. -/
theorem play_cadence_witness :
    (∀ (ps' : PlayerState) (c : ℚ) (ev : TaggedEvent)
        (rest : List TaggedEvent),
        (playLoop sysNull 1 ps' c (ev :: rest)).sleeps.head? =
          some (if c < ev.timestamp then ev.timestamp - c else 0)) ∧
    (playLoop sysNull 1 {} 0
        [TaggedEvent.keyboard pressA,
         TaggedEvent.mouse { type := some "move_relative", dx := some 1,
                             dy := some 0, timestamp := 5 }]).aborted = none ∧
    (playLoop sysNull 1 {} 0
        [TaggedEvent.keyboard pressA,
         TaggedEvent.mouse { type := some "move_relative", dx := some 1,
                             dy := some 0, timestamp := 5 }]).played =
      ([TaggedEvent.keyboard pressA,
         TaggedEvent.mouse { type := some "move_relative", dx := some 1,
                             dy := some 0, timestamp := 5 }] :
        List TaggedEvent).length ∧
    (playLoop sysNull 1 {} 0
        [TaggedEvent.keyboard pressA,
         TaggedEvent.mouse { type := some "move_relative", dx := some 1,
                             dy := some 0, timestamp := 5 }]).sleeps.length =
      ([TaggedEvent.keyboard pressA,
         TaggedEvent.mouse { type := some "move_relative", dx := some 1,
                             dy := some 0, timestamp := 5 }] :
        List TaggedEvent).length ∧
    (∀ ev ∈ ([TaggedEvent.keyboard pressA,
         TaggedEvent.mouse { type := some "move_relative", dx := some 1,
                             dy := some 0, timestamp := 5 }] :
        List TaggedEvent),
      ev.timestamp ≤ (playLoop sysNull 1 {} 0
        [TaggedEvent.keyboard pressA,
         TaggedEvent.mouse { type := some "move_relative", dx := some 1,
                             dy := some 0, timestamp := 5 }]).clock) ∧
    (0 : ℚ) ≤ (playLoop sysNull 1 {} 0
        [TaggedEvent.keyboard pressA,
         TaggedEvent.mouse { type := some "move_relative", dx := some 1,
                             dy := some 0, timestamp := 5 }]).clock :=
  play_cadence sysNull 1
    [TaggedEvent.keyboard pressA,
     TaggedEvent.mouse { type := some "move_relative", dx := some 1,
                         dy := some 0, timestamp := 5 }] {} 0
    (by
      intro k hk
      simp at hk
      subst hk
      simp [pressA])

/-- Handling a recorded `a`-press injects its scan code (`0x1E`) and
logs nothing. -/
theorem handle_pressA :
    handle_keyboard_event sysNull pressA =
      .ok ([Injection.key 30 false true], []) := by
  rfl

/-- Handling the unknown token logs exactly the unresolved-key warning,
injects nothing, and does not raise. -/
theorem handle_pressUnknown :
    handle_keyboard_event sysNull pressUnknown =
      .ok ([], [LogEntry.unknownKey "unknown_token_zz"]) := by
  rfl

/-- One `a`-press at timestamp `0` dispatched from elapsed clock `0`:
the loop injects the key and continues. -/
theorem playLoop_pressA_step (ps : PlayerState) (rest : List TaggedEvent) :
    playLoop sysNull 1 ps 0 (TaggedEvent.keyboard pressA :: rest) =
      { playLoop sysNull 1 ps 0 rest with
        injections :=
          Injection.key 30 false true ::
            (playLoop sysNull 1 ps 0 rest).injections
        sleeps := 0 :: (playLoop sysNull 1 ps 0 rest).sleeps
        played := (playLoop sysNull 1 ps 0 rest).played + 1 } := by
  have ht : (TaggedEvent.keyboard pressA).timestamp = 0 := rfl
  norm_num [playLoop, handle_pressA, ht]

/-- A run of `n` recorded `a`-presses before a continuation `bs`:
`n` injections, `n` zero sleeps, no logs, no abort. -/
theorem playLoop_pressA_replicate (n : ℕ) (ps : PlayerState)
    (bs : List TaggedEvent) :
    playLoop sysNull 1 ps 0
        (List.replicate n (TaggedEvent.keyboard pressA) ++ bs) =
      { playLoop sysNull 1 ps 0 bs with
        injections :=
          List.replicate n (Injection.key 30 false true) ++
            (playLoop sysNull 1 ps 0 bs).injections
        sleeps := List.replicate n (0 : ℚ) ++
          (playLoop sysNull 1 ps 0 bs).sleeps
        played := (playLoop sysNull 1 ps 0 bs).played + n } := by
  induction n with
  | zero => simp
  | succ m ih =>
    rw [List.replicate_succ, List.cons_append, playLoop_pressA_step, ih]
    simp [List.replicate_succ]
    omega

/-- C1: evaluation of the playback loop at the spec's resilience
recording and at the failing input.  (a) The 50-event recording with
one unresolvable key token completes all 50 events, logs exactly one
unresolved-key warning, performs the other 49 injections and never
aborts.  (b) But a keyboard record missing its `key` field makes the
`except` block's own log formatting raise `KeyError`, aborting the
loop: a following valid event is never dispatched, contradicting the
claim's universal catch-and-continue guarantee (the code slip the spec
forbids). -/
theorem event_isolation_evaluation :
    ((playLoop sysNull 1 {} 0 resilienceEvents).played = 50 ∧
      (playLoop sysNull 1 {} 0 resilienceEvents).logs =
        [LogEntry.unknownKey "unknown_token_zz"] ∧
      (playLoop sysNull 1 {} 0 resilienceEvents).aborted = none ∧
      (playLoop sysNull 1 {} 0 resilienceEvents).injections.length = 49) ∧
    ((playLoop sysNull 1 {} 0
        [TaggedEvent.keyboard pressKeyless,
         TaggedEvent.keyboard pressA]).aborted = some "KeyError: key" ∧
      (playLoop sysNull 1 {} 0
        [TaggedEvent.keyboard pressKeyless,
         TaggedEvent.keyboard pressA]).played = 0 ∧
      (playLoop sysNull 1 {} 0
        [TaggedEvent.keyboard pressKeyless,
         TaggedEvent.keyboard pressA]).injections = []) := by
  constructor
  · have hres : resilienceEvents =
        List.replicate 25 (TaggedEvent.keyboard pressA) ++
          (TaggedEvent.keyboard pressUnknown ::
            (List.replicate 24 (TaggedEvent.keyboard pressA) ++ [])) := by
      simp [resilienceEvents]
    have hU : playLoop sysNull 1 {} 0
        (TaggedEvent.keyboard pressUnknown ::
          (List.replicate 24 (TaggedEvent.keyboard pressA) ++ [])) =
        { playLoop sysNull 1 {} 0
            (List.replicate 24 (TaggedEvent.keyboard pressA) ++ []) with
          logs := LogEntry.unknownKey "unknown_token_zz" ::
            (playLoop sysNull 1 {} 0
              (List.replicate 24 (TaggedEvent.keyboard pressA) ++ [])).logs
          sleeps := 0 :: (playLoop sysNull 1 {} 0
            (List.replicate 24 (TaggedEvent.keyboard pressA) ++ [])).sleeps
          played := (playLoop sysNull 1 {} 0
            (List.replicate 24 (TaggedEvent.keyboard pressA) ++ [])).played
            + 1 } := by
      have ht : (TaggedEvent.keyboard pressUnknown).timestamp = 0 := rfl
      simp only [playLoop, ht, handle_pressUnknown]
      norm_num
    rw [hres, playLoop_pressA_replicate, hU, playLoop_pressA_replicate]
    simp [playLoop]
  · have hke : handle_keyboard_event sysNull
        { type := some "press", key := none, pressed := some true,
          timestamp := 0 } = .error "KeyError: key" := by
      simp [handle_keyboard_event, handle_keyboard_event_body, keyField,
        bind, Except.bind]
    refine ⟨?_, ?_, ?_⟩ <;>
      norm_num [playLoop, pressKeyless, hke, TaggedEvent.timestamp]

/-- Truncation toward zero leaves a fractional part strictly inside
`(-1, 1)`. -/
theorem sub_pyTrunc_bounds (a : ℚ) :
    -1 < a - pyTrunc a ∧ a - pyTrunc a < 1 := by
  unfold pyTrunc
  split_ifs with h
  · have h1 := Int.sub_one_lt_floor a
    have h2 := Int.floor_le a
    constructor <;> push_cast <;> linarith
  · have h1 := Int.le_ceil a
    have h2 := Int.ceil_lt_add_one a
    constructor <;> push_cast <;> linarith

/-- After one accumulator step the remainder always lies strictly
inside `(-1, 1)`: the truncation leaves a proper fraction, and the
anti-stall discharge of a forced unit keeps it proper. -/
theorem axisStep_remainder_bound (acc δ : ℚ) :
    -1 < (axisStep acc δ).2 ∧ (axisStep acc δ).2 < 1 := by
  obtain ⟨hlo, hhi⟩ := sub_pyTrunc_bounds (acc + δ)
  simp only [axisStep]
  split_ifs with h hpos
  · rw [abs_of_pos hpos] at h
    constructor <;> push_cast <;> linarith [h.2]
  · push_neg at hpos
    rw [abs_of_nonpos hpos] at h
    constructor <;> push_cast <;> linarith [h.2]
  · exact ⟨hlo, hhi⟩

/-- Conservation: remainder plus sent integer equals the old remainder
plus the scaled delta — no motion is ever lost or invented. -/
theorem axisStep_conserve (acc δ : ℚ) :
    (axisStep acc δ).2 + ((axisStep acc δ).1 : ℚ) = acc + δ := by
  simp only [axisStep]
  split_ifs with h hpos
  · obtain ⟨h0, -⟩ := h
    rw [h0]
    push_cast
    ring
  · obtain ⟨h0, -⟩ := h
    rw [h0]
    push_cast
    ring
  · push_cast
    ring

/-- Iterating the axis accumulator: the final remainder plus the total
sent motion accounts exactly for all the scaled input. -/
theorem runAxisFrom_total (δ : ℚ) : ∀ (n : ℕ) (acc : ℚ),
    (runAxisFrom δ acc n).1 + ((runAxisFrom δ acc n).2 : ℚ) =
      acc + n * δ := by
  intro n
  induction n with
  | zero => intro acc; simp [runAxisFrom]
  | succ m ih =>
    intro acc
    have hc := axisStep_conserve acc δ
    have hi := ih (axisStep acc δ).2
    simp only [runAxisFrom]
    push_cast at hi ⊢
    push_cast at hc
    linarith [hi, hc]

/-- The running remainder stays strictly inside `(-1, 1)`. -/
theorem runAxisFrom_bound (δ : ℚ) : ∀ (n : ℕ) (acc : ℚ),
    -1 < acc → acc < 1 →
    -1 < (runAxisFrom δ acc n).1 ∧ (runAxisFrom δ acc n).1 < 1 := by
  intro n
  induction n with
  | zero => intro acc h1 h2; simpa [runAxisFrom] using ⟨h1, h2⟩
  | succ m ih =>
    intro acc h1 h2
    have hb := axisStep_remainder_bound acc δ
    simpa [runAxisFrom] using ih _ hb.1 hb.2

/-- The `move_relative` branch of the mouse dispatcher is exactly one
`axisStep` per axis, and the port is called only when some axis sends
non-zero motion. -/
theorem handle_move_eq (sens : ℚ) (ps : PlayerState) (ev : MouseEvent)
    (dxv dyv : Int) (hty : ev.type = some "move_relative")
    (hdx : ev.dx = some dxv) (hdy : ev.dy = some dyv) :
    handle_mouse_event sens ps ev =
      (⟨(axisStep ps.mouse_accumulator_x (dxv * sens)).2,
        (axisStep ps.mouse_accumulator_y (dyv * sens)).2⟩,
       (if (axisStep ps.mouse_accumulator_x (dxv * sens)).1 ≠ 0 ∨
            (axisStep ps.mouse_accumulator_y (dyv * sens)).1 ≠ 0 then
          move_relative (axisStep ps.mouse_accumulator_x (dxv * sens)).1
            (axisStep ps.mouse_accumulator_y (dyv * sens)).1
        else []), []) := by
  simp [handle_mouse_event, handle_mouse_event_body, keyField, hty, hdx,
    hdy, axisStep, bind, Except.bind, pure, Except.pure]

/-- `sumDx` distributes over concatenated injection traces. -/
theorem sumDx_append : ∀ (a b : List Injection),
    sumDx (a ++ b) = sumDx a + sumDx b := by
  intro a b
  induction a with
  | nil => simp [sumDx]
  | cons i rest ih =>
    cases i <;> simp [sumDx, ih] <;> ring

/-- The degenerate y-axis of the anti-stall scenario never moves. -/
theorem axisStep_zero_zero : axisStep 0 (((0 : ℤ) : ℚ) * (1 / 10)) =
    (0, 0) := by
  norm_num [axisStep, pyTrunc]

/-- Playing `n` recorded `dx = 1` events at sensitivity `0.1` injects in
total exactly what `n` iterations of the axis accumulator send. -/
theorem playLoop_dxOne : ∀ (n : ℕ) (acc c : ℚ),
    sumDx (playLoop sysNull (1 / 10) ⟨acc, 0⟩ c
        (List.replicate n (TaggedEvent.mouse dxOneEvent))).injections =
      (runAxisFrom (1 / 10) acc n).2 := by
  intro n
  induction n with
  | zero => intro acc c; simp [playLoop, runAxisFrom, sumDx]
  | succ m ih =>
    intro acc c
    have hm := handle_move_eq (1 / 10) ⟨acc, 0⟩ dxOneEvent 1 0 rfl rfl rfl
    rw [axisStep_zero_zero] at hm
    have hone : (((1 : ℤ) : ℚ) * (1 / 10)) = 1 / 10 := by norm_num
    rw [hone] at hm
    simp only [List.replicate_succ, playLoop, hm]
    rw [sumDx_append, ih, runAxisFrom]
    by_cases hz : (axisStep acc (1 / 10)).1 = 0 <;>
      simp [hz, move_relative, sumDx, -one_div]

/-- C2: the sensitivity-scaled carry accumulator of the Replay Engine.
Per axis and step: the sent integer is the truncation toward zero of
remainder + scaled delta, the fraction carries forward (conservation),
and a stalled axis whose remainder has reached magnitude `0.8` is
forced to send `±1` and discharge it; the injection port is called only
when some axis sends non-zero motion.  Consequently at sensitivity
`0.1`, over any `n ≥ 20` recorded `dx = 1` events, the cumulative
injected x-motion is within `±1` of `0.1 · n`.  (Python floats are
modelled as exact rationals.) -/
theorem carry_accumulator (sens : ℚ) :
    (∀ acc δ : ℚ,
        ((axisStep acc δ).2 + ((axisStep acc δ).1 : ℚ) = acc + δ) ∧
        (pyTrunc (acc + δ) ≠ 0 →
          axisStep acc δ =
            (pyTrunc (acc + δ), acc + δ - pyTrunc (acc + δ))) ∧
        (pyTrunc (acc + δ) = 0 → 4 / 5 ≤ |acc + δ| →
          axisStep acc δ =
            ((if 0 < acc + δ then 1 else -1),
             acc + δ - (if 0 < acc + δ then (1 : ℤ) else -1))) ∧
        (pyTrunc (acc + δ) = 0 → |acc + δ| < 4 / 5 →
          axisStep acc δ = (0, acc + δ))) ∧
    (∀ (ps : PlayerState) (ev : MouseEvent) (dxv dyv : Int),
        ev.type = some "move_relative" → ev.dx = some dxv →
        ev.dy = some dyv →
        handle_mouse_event sens ps ev =
          (⟨(axisStep ps.mouse_accumulator_x (dxv * sens)).2,
            (axisStep ps.mouse_accumulator_y (dyv * sens)).2⟩,
           (if (axisStep ps.mouse_accumulator_x (dxv * sens)).1 ≠ 0 ∨
                (axisStep ps.mouse_accumulator_y (dyv * sens)).1 ≠ 0 then
              move_relative
                (axisStep ps.mouse_accumulator_x (dxv * sens)).1
                (axisStep ps.mouse_accumulator_y (dyv * sens)).1
            else []), [])) ∧
    (∀ n : ℕ, 20 ≤ n →
        |((sumDx (playLoop sysNull (1 / 10) ⟨0, 0⟩ 0
            (List.replicate n (TaggedEvent.mouse dxOneEvent))).injections :
              ℚ) - n * (1 / 10))| ≤ 1) := by
  refine ⟨?_, ?_, ?_⟩
  · intro acc δ
    refine ⟨axisStep_conserve acc δ, ?_, ?_, ?_⟩
    · intro hne
      simp only [axisStep]
      rw [if_neg (by simp [hne])]
    · intro h0 habs
      simp only [axisStep]
      rw [h0]
      rw [if_pos (by simpa [h0] using habs)]
      push_cast
      ring_nf
    · intro h0 habs
      simp only [axisStep]
      rw [h0]
      rw [if_neg (by
        simp only [Int.cast_zero, sub_zero, not_and, not_le]
        intro _
        exact habs)]
      push_cast
      ring_nf
  · intro ps ev dxv dyv hty hdx hdy
    exact handle_move_eq sens ps ev dxv dyv hty hdx hdy
  · intro n hn
    rw [playLoop_dxOne n 0 0]
    have ht := runAxisFrom_total (1 / 10) n 0
    have hb := runAxisFrom_bound (1 / 10) n 0 (by norm_num) (by norm_num)
    rw [abs_le]
    constructor <;> linarith [ht, hb.1, hb.2]

/-- Witness for C2: the truncation rule at remainder `0`, delta `1/2`;
the dispatcher at a concrete `MoveRelative{dx=1, dy=0}` event; and the
cumulative bound at exactly `n = 20` events, `0.1 · 20 = 2`. -/
theorem carry_accumulator_witness :
    ((axisStep 0 (1 / 2)).2 + (((axisStep 0 (1 / 2)).1 : ℤ) : ℚ) =
        0 + 1 / 2) ∧
    (handle_mouse_event (1 / 10) ⟨0, 0⟩ dxOneEvent =
      (⟨(axisStep 0 (((1 : ℤ) : ℚ) * (1 / 10))).2,
        (axisStep 0 (((0 : ℤ) : ℚ) * (1 / 10))).2⟩,
       (if (axisStep 0 (((1 : ℤ) : ℚ) * (1 / 10))).1 ≠ 0 ∨
            (axisStep 0 (((0 : ℤ) : ℚ) * (1 / 10))).1 ≠ 0 then
          move_relative (axisStep 0 (((1 : ℤ) : ℚ) * (1 / 10))).1
            (axisStep 0 (((0 : ℤ) : ℚ) * (1 / 10))).1
        else []), [])) ∧
    |((sumDx (playLoop sysNull (1 / 10) ⟨0, 0⟩ 0
        (List.replicate 20 (TaggedEvent.mouse dxOneEvent))).injections :
          ℚ) - 20 * (1 / 10))| ≤ 1 :=
  ⟨((carry_accumulator (1 / 10)).1 0 (1 / 2)).1,
   (carry_accumulator (1 / 10)).2.1 ⟨0, 0⟩ dxOneEvent 1 0 rfl rfl rfl,
   (carry_accumulator (1 / 10)).2.2 20 (by norm_num)⟩

end Replayer
